import Mathlib

/-!
Verification of the `bmputil` Blackmagic Probe device-management core
(`src/bmp.rs`) against its natural-language specification.

The development shallowly embeds the code: machine integers become `Nat`,
fallible USB-collaborator calls become explicit result values supplied as
inputs, the per-handle serial cache becomes explicit state passing, and the
polling loop of the reconnection waiter becomes a fuel-indexed recursion
over an explicit clock and an explicit sequence of scan outcomes.
-/

set_option maxRecDepth 4000

namespace Bmputil

/-- USB vendor id newtype, `Vid(u16)` from `crate::usb`. -/
structure Vid where
  val : Nat
deriving DecidableEq, Repr

/-- USB product id newtype, `Pid(u16)` from `crate::usb`. -/
structure Pid where
  val : Nat
deriving DecidableEq, Repr

/-- `DfuOperatingMode` from `crate::usb`: the two personalities of the probe. -/
inductive DfuOperatingMode where
  | Runtime
  | FirmwareUpgrade
deriving DecidableEq, Repr

/-- `ErrorKind` / `Error` from `crate::error`, restricted to the variants the
claims mention.  `transport` stands for a passthrough rusb/libusb error,
identified by an abstract numeric code; `deviceReboot` wraps its source
error as `ErrorKind::DeviceReboot.error_from(..)` does. -/
inductive Error where
  | deviceNotFound
  | tooManyDevices
  | deviceSeemsInvalid (reason : String)
  | deviceDisconnectDuringOperation
  | deviceReboot (source : Error)
  | transport (code : Nat)
deriving DecidableEq, Repr

/-- Outcome of a fallible USB-collaborator call, `Result<T, rusb::Error>`. -/
inductive UsbResult (α : Type) where
  | ok (value : α)
  | err (code : Nat)
deriving DecidableEq, Repr

/-- `BmpVidPid::VID = Vid(0x1d50)` (src/bmp.rs line 878). -/
def BmpVidPid.VID : Vid := ⟨0x1d50⟩

/-- `BmpVidPid::PID_RUNTIME = Pid(0x6018)` (src/bmp.rs line 879). -/
def BmpVidPid.PID_RUNTIME : Pid := ⟨0x6018⟩

/-- `BmpVidPid::PID_DFU = Pid(0x6017)` (src/bmp.rs line 880). -/
def BmpVidPid.PID_DFU : Pid := ⟨0x6017⟩

/-- `BmpVidPid::mode_from_vid_pid` (src/bmp.rs lines 884-896): match on the
vendor id, then on the product id, against the constant table. -/
def BmpVidPid.mode_from_vid_pid (vid : Vid) (pid : Pid) : Option DfuOperatingMode :=
  if vid = BmpVidPid.VID then
    if pid = BmpVidPid.PID_RUNTIME then some .Runtime
    else if pid = BmpVidPid.PID_DFU then some .FirmwareUpgrade
    else none
  else none

end Bmputil

namespace Bmputil

/-- Model of one `rusb::Device<rusb::Context>` as the Matcher & Enumerator
observes it: its device-descriptor ids, its physical topology, and the fixed
outcomes of the fallible collaborator calls made on it (`open`,
`read_languages`, `read_serial_number_string`).  `device_descriptor()` and
`port_numbers()` cannot fail (the code `expect`s them), so they are plain
fields. -/
structure UsbDevice where
  vid : Nat
  pid : Nat
  bus_number : Nat
  port_numbers : List Nat
  openResult : UsbResult Unit
  readLanguages : UsbResult (List Nat)
  readSerialString : UsbResult String
deriving DecidableEq, Repr

/-- `BlackmagicProbeDevice` (src/bmp.rs lines 25-33): the device, its resolved
operating mode (fixed at construction), and the `RefCell<Option<String>>`
serial cache as an explicit optional field.  The open handle carries no
observable state of its own here: its fallible calls are the `UsbResult`
fields of `UsbDevice`. -/
structure BlackmagicProbeDevice where
  device : UsbDevice
  mode : DfuOperatingMode
  serial : Option String
deriving DecidableEq, Repr

/-- `BlackmagicProbeDevice::from_usb_device` (src/bmp.rs lines 126-146):
resolve the mode from the descriptor ids (failing with `DeviceNotFound` when
the pair is not a probe-family pair), then open the device; the serial cache
starts out `None`. -/
def from_usb_device (dev : UsbDevice) : Except Error BlackmagicProbeDevice :=
  match BmpVidPid.mode_from_vid_pid ⟨dev.vid⟩ ⟨dev.pid⟩ with
  | none => .error .deviceNotFound
  | some mode =>
    match dev.openResult with
    | .err code => .error (.transport code)
    | .ok _ => .ok { device := dev, mode := mode, serial := none }

/-- `BlackmagicProbeDevice::serial_number` (src/bmp.rs lines 186-218), with
the `RefCell` cache made explicit.  Input: the current cache contents and the
device's collaborator outcomes.  Output: the result, the new cache contents,
and whether the device was actually read (`read_languages` issued).  A cache
hit returns immediately; otherwise the languages are read (an empty language
list is `DeviceSeemsInvalid`), the serial is read via the first language, and
on success the cache is written. -/
def serial_number (cache : Option String) (dev : UsbDevice) :
    Except Error String × Option String × Bool :=
  match cache with
  | some s => (.ok s, some s, false)
  | none =>
    match dev.readLanguages with
    | .err code => (.error (.transport code), none, true)
    | .ok [] => (.error (.deviceSeemsInvalid "no string descriptor languages"), none, true)
    | .ok (_ :: _) =>
      match dev.readSerialString with
      | .err code => (.error (.transport code), none, true)
      | .ok s => (.ok s, some s, true)

/-- `BlackmagicProbeMatchResults` (src/bmp.rs lines 599-605): the three
partitions of one enumeration pass. -/
structure BlackmagicProbeMatchResults where
  found : List BlackmagicProbeDevice
  filtered_out : List UsbDevice
  errors : List Error
deriving DecidableEq, Repr

/-- `BlackmagicProbeMatchResults::pop_single` (src/bmp.rs lines 641-679), with
the `&mut self` receiver made explicit: the result is returned together with
the updated results value.  Empty `found` fails with `DeviceNotFound`; more
than one entry fails with `TooManyDevices` leaving the results untouched;
exactly one entry is removed (`found.remove(0)`) and returned.  The diagnostic
`warn!`/`error!` lines print text only and do not affect the outcome. -/
def pop_single (r : BlackmagicProbeMatchResults) :
    Except Error BlackmagicProbeDevice × BlackmagicProbeMatchResults :=
  match r.found with
  | [] => (.error .deviceNotFound, r)
  | d :: rest =>
    if (d :: rest).length > 1 then (.error .tooManyDevices, r)
    else (.ok d, { r with found := rest })

/-- `BlackmagicProbeMatchResults::pop_single_silent` (src/bmp.rs lines
682-691): same arity rules as `pop_single` but checked in the other order
(`len > 1` first, then empty) and with no diagnostics. -/
def pop_single_silent (r : BlackmagicProbeMatchResults) :
    Except Error BlackmagicProbeDevice × BlackmagicProbeMatchResults :=
  if r.found.length > 1 then (.error .tooManyDevices, r)
  else
    match r.found with
    | [] => (.error .deviceNotFound, r)
    | d :: rest => (.ok d, { r with found := rest })

/-- `BlackmagicProbeMatcher` (src/bmp.rs lines 528-534): the three optional
operator criteria; an unset field matches anything. -/
structure BlackmagicProbeMatcher where
  index : Option Nat
  serial : Option String
  port : Option String
deriving DecidableEq, Repr

/-- The port-path string `"<bus>-<port1>.<port2>...<portN>"` built in the port
predicate of `find_matching_probes` (src/bmp.rs lines 795-807). -/
def port_path (dev : UsbDevice) : String :=
  toString dev.bus_number ++ "-"
    ++ String.intercalate "." (dev.port_numbers.map toString)

/-- `index_matches` (src/bmp.rs line 790): the index criterion matches when it
is unset or equals the candidate's position in the pre-filtered sequence. -/
def index_matches (matcher : BlackmagicProbeMatcher) (index : Nat) : Bool :=
  match matcher.index with
  | none => true
  | some needle => needle == index

/-- `port_matches` (src/bmp.rs lines 794-810): the port criterion matches when
it is unset or equals the candidate's port-path string. -/
def port_matches (matcher : BlackmagicProbeMatcher) (dev : UsbDevice) : Bool :=
  match matcher.port with
  | none => true
  | some p => p == port_path dev

/-- Whether a device survives the probe-family pre-filter of
`find_matching_probes` (src/bmp.rs lines 731-739): its (vid, pid) pair
resolves to an operating mode. -/
def is_probe_family (dev : UsbDevice) : Bool :=
  (BmpVidPid.mode_from_vid_pid ⟨dev.vid⟩ ⟨dev.pid⟩).isSome

/-- Tail of the per-candidate loop body of `find_matching_probes`
(src/bmp.rs lines 788-823), after `serial_matches` has been computed: evaluate
the index and port predicates, and on full match construct a probe handle
(recording a construction failure as an error), otherwise file the candidate
under `filtered_out`. -/
def scan_finish (matcher : BlackmagicProbeMatcher) (index : Nat) (dev : UsbDevice)
    (serial_matches : Bool) (results : BlackmagicProbeMatchResults) :
    BlackmagicProbeMatchResults :=
  if index_matches matcher index && port_matches matcher dev && serial_matches then
    match from_usb_device dev with
    | .ok bmpdev => { results with found := results.found ++ [bmpdev] }
    | .error e => { results with errors := results.errors ++ [e] }
  else
    { results with filtered_out := results.filtered_out ++ [dev] }

/-- One iteration of the candidate loop of `find_matching_probes`
(src/bmp.rs lines 741-824).  When a serial criterion is set the device is
opened and its languages and serial string are read; each failure is recorded
in `errors` and ends the iteration (`continue`).  The code takes the first
language with `l.remove(0)`, which panics on an empty language list: that
panic is the `none` outcome. -/
def scan_step (matcher : BlackmagicProbeMatcher) (index : Nat) (dev : UsbDevice)
    (results : BlackmagicProbeMatchResults) :
    Option BlackmagicProbeMatchResults :=
  if matcher.serial.isSome then
    match dev.openResult with
    | .err code => some { results with errors := results.errors ++ [.transport code] }
    | .ok _ =>
      match dev.readLanguages with
      | .err code => some { results with errors := results.errors ++ [.transport code] }
      | .ok [] => none
      | .ok (_ :: _) =>
        match dev.readSerialString with
        | .err code => some { results with errors := results.errors ++ [.transport code] }
        | .ok s => some (scan_finish matcher index dev (some s == matcher.serial) results)
  else
    some (scan_finish matcher index dev true results)

/-- The candidate loop of `find_matching_probes` over the pre-filtered device
sequence, threading the position index (`devices.enumerate()`). -/
def scan_loop (matcher : BlackmagicProbeMatcher) (index : Nat)
    (devs : List UsbDevice) (results : BlackmagicProbeMatchResults) :
    Option BlackmagicProbeMatchResults :=
  match devs with
  | [] => some results
  | dev :: rest =>
    match scan_step matcher index dev results with
    | none => none
    | some r => scan_loop matcher (index + 1) rest r

/-- The USB device universe as `find_matching_probes` sees it: the outcomes of
`rusb::Context::new()` and `context.devices()`, and the raw device list. -/
structure UsbUniverse where
  contextResult : UsbResult Unit
  devicesResult : UsbResult Unit
  devices : List UsbDevice
deriving DecidableEq, Repr

/-- `find_matching_probes` (src/bmp.rs lines 706-829): an early enumeration
failure short-circuits into a single error; otherwise the raw list is
pre-filtered to the probe family and scanned.  `none` is the panic outcome
inherited from `scan_step`. -/
def find_matching_probes (matcher : BlackmagicProbeMatcher) (u : UsbUniverse) :
    Option BlackmagicProbeMatchResults :=
  match u.contextResult with
  | .err code => some ⟨[], [], [.transport code]⟩
  | .ok _ =>
    match u.devicesResult with
    | .err code => some ⟨[], [], [.transport code]⟩
    | .ok _ => scan_loop matcher 0 (u.devices.filter is_probe_family) ⟨[], [], []⟩

/-- The probe handle `find_matching_probes` builds from a fully matching
probe-family candidate whose open succeeds (what `from_usb_device` returns
then). -/
def mk_probe (dev : UsbDevice) : BlackmagicProbeDevice :=
  { device := dev
    mode := (BmpVidPid.mode_from_vid_pid ⟨dev.vid⟩ ⟨dev.pid⟩).getD .Runtime
    serial := none }

/-- Each branch of `scan_finish` files the candidate in exactly one of the
three result sets. -/
lemma scan_finish_count (m : BlackmagicProbeMatcher) (i : Nat) (dev : UsbDevice)
    (sm : Bool) (acc : BlackmagicProbeMatchResults) :
    (scan_finish m i dev sm acc).found.length
      + (scan_finish m i dev sm acc).filtered_out.length
      + (scan_finish m i dev sm acc).errors.length
    = acc.found.length + acc.filtered_out.length + acc.errors.length + 1 := by
  unfold scan_finish
  split
  · cases h : from_usb_device dev <;> simp <;> omega
  · simp
    omega

/-- Each non-panicking loop iteration accounts for its candidate exactly
once. -/
lemma scan_step_count (m : BlackmagicProbeMatcher) (i : Nat) (dev : UsbDevice)
    (acc r : BlackmagicProbeMatchResults) (h : scan_step m i dev acc = some r) :
    r.found.length + r.filtered_out.length + r.errors.length
    = acc.found.length + acc.filtered_out.length + acc.errors.length + 1 := by
  unfold scan_step at h
  by_cases hs : m.serial.isSome = true
  · rw [if_pos hs] at h
    cases ho : dev.openResult with
    | err c => rw [ho] at h; cases h; simp; omega
    | ok u =>
      rw [ho] at h
      cases hl : dev.readLanguages with
      | err c => rw [hl] at h; cases h; simp; omega
      | ok langs =>
        rw [hl] at h
        cases langs with
        | nil => simp at h
        | cons a as =>
          cases hsr : dev.readSerialString with
          | err c => rw [hsr] at h; cases h; simp; omega
          | ok s => rw [hsr] at h; cases h; exact scan_finish_count ..
  · rw [if_neg hs] at h
    cases h
    exact scan_finish_count ..

/-- The candidate loop neither drops nor duplicates candidates: in a run
without panic, every scanned candidate lands in exactly one result set. -/
lemma scan_loop_count (m : BlackmagicProbeMatcher) :
    ∀ (devs : List UsbDevice) (i : Nat) (acc r : BlackmagicProbeMatchResults),
    scan_loop m i devs acc = some r →
    r.found.length + r.filtered_out.length + r.errors.length
    = acc.found.length + acc.filtered_out.length + acc.errors.length + devs.length := by
  intro devs
  induction devs with
  | nil =>
    intro i acc r h
    unfold scan_loop at h
    cases h
    simp
  | cons d rest ih =>
    intro i acc r h
    unfold scan_loop at h
    cases hstep : scan_step m i d acc with
    | none => rw [hstep] at h; simp at h
    | some r2 =>
      rw [hstep] at h
      have h1 := scan_step_count m i d acc r2 hstep
      have h2 := ih (i + 1) r2 r h
      simp only [List.length_cons]
      omega

/-- USB control-transfer direction (`rusb::Direction`). -/
inductive Direction where
  | hostToDevice
  | deviceToHost
deriving DecidableEq, Repr

/-- One class-scoped, interface-recipient control request as issued by the
mode-transition code: its direction, request code (`bRequest`), `wValue`,
`wIndex`, and the payload/buffer length.  All requests of `leave_dfu_mode`
and `enter_dfu_mode` use `RequestType::Class` / `Recipient::Interface`, so
those two components are constant and omitted. -/
structure ControlRequest where
  direction : Direction
  request : Nat
  value : Nat
  index : Nat
  dataLength : Nat
deriving DecidableEq, Repr

/-- Modelled from the spec: the `DfuRequest` discriminants live in
`crate::usb`, which is not under src/; §6 of the spec fixes the codes
DETACH = 0, DNLOAD = 1, GETSTATUS = 3. -/
def DfuRequest.Detach : Nat := 0

/-- Modelled from the spec: DNLOAD request code (§6). -/
def DfuRequest.Dnload : Nat := 1

/-- Modelled from the spec: GETSTATUS request code (§6). -/
def DfuRequest.GetStatus : Nat := 3

/-- The control requests issued on the success path of `leave_dfu_mode`
(src/bmp.rs lines 309-334), given the DFU interface number found by
`dfu_descriptors`: the zero-length DNLOAD is written with `wValue` 0 and a
literal 0 as `wIndex` (line 314), then GETSTATUS is read into a 6-byte
buffer with the interface number as `wIndex`. -/
def leave_dfu_mode_requests (iface_number : Nat) : List ControlRequest :=
  [ { direction := .hostToDevice, request := DfuRequest.Dnload
      value := 0, index := 0, dataLength := 0 },
    { direction := .deviceToHost, request := DfuRequest.GetStatus
      value := 0, index := iface_number, dataLength := 6 } ]

/-- The control request issued on the success path of `enter_dfu_mode`
(src/bmp.rs lines 355-369): DETACH with the functional descriptor's detach
timeout as `wValue` and the interface number as `wIndex`. -/
def enter_dfu_mode_requests (iface_number : Nat) (wDetachTimeOut : Nat) :
    List ControlRequest :=
  [ { direction := .hostToDevice, request := DfuRequest.Detach
      value := wDetachTimeOut, index := iface_number, dataLength := 0 } ]

/-- `GenericDescriptorRef` from `crate::usb`, as `dfu_descriptors` consumes
it: the record's type tag (`descriptor_type()`) and its raw bytes. -/
structure GenericDescriptorRef where
  descriptorType : Nat
  raw : List Nat
deriving DecidableEq, Repr

/-- `DfuFunctionalDescriptor::LENGTH = 9`: the fixed record size (§6). -/
def DfuFunctionalDescriptor.LENGTH : Nat := 9

/-- Modelled from the spec: the fixed type-tag value identifying a DFU
functional descriptor (`DfuFunctionalDescriptor::TYPE`, defined in
`crate::usb` which is not under src/).  The spec fixes only that it is one
constant; the USB DFU class value 0x21 is used.  No claim depends on the
numeral. -/
def DfuFunctionalDescriptor.TYPE : Nat := 0x21

/-- The decoded DFU functional descriptor (§6 field layout). -/
structure DfuFunctionalDescriptor where
  bLength : Nat
  bDescriptorType : Nat
  bmAttributes : Nat
  wDetachTimeOut : Nat
  wTransferSize : Nat
  bcdDFUVersion : Nat
deriving DecidableEq, Repr

/-- A 16-bit little-endian field from two bytes (§6 byte order). -/
def le16 (lo hi : Nat) : Nat := lo + 256 * hi

/-- Modelled from the spec: `DfuFunctionalDescriptor::copy_from_bytes`
(defined in `crate::usb`, not under src/) decodes the fixed 9-byte
little-endian record — length, type tag, attribute bitfield, detach-timeout,
transfer-size, protocol version — and fails on a buffer of the wrong
size. -/
def copy_from_bytes (bytes : List Nat) : Except Unit DfuFunctionalDescriptor :=
  if bytes.length = DfuFunctionalDescriptor.LENGTH then
    .ok { bLength := bytes.getD 0 0
          bDescriptorType := bytes.getD 1 0
          bmAttributes := bytes.getD 2 0
          wDetachTimeOut := le16 (bytes.getD 3 0) (bytes.getD 4 0)
          wTransferSize := le16 (bytes.getD 5 0) (bytes.getD 6 0)
          bcdDFUVersion := le16 (bytes.getD 7 0) (bytes.getD 8 0) }
  else .error ()

/-- Outcome of locating the functional descriptor: the code can return an
error, succeed, or abort the whole program (a Rust panic). -/
inductive DescriptorFindOutcome where
  | panics (msg : String)
  | fails (e : Error)
  | ok (d : DfuFunctionalDescriptor)
deriving DecidableEq, Repr

/-- Whether the outcome is a returned `DeviceSeemsInvalid` error. -/
def DescriptorFindOutcome.isDeviceSeemsInvalid : DescriptorFindOutcome → Bool
  | .fails (.deviceSeemsInvalid _) => true
  | _ => false

/-- Whether the outcome aborts the program. -/
def DescriptorFindOutcome.isPanic : DescriptorFindOutcome → Bool
  | .panics _ => true
  | _ => false

/-- The functional-descriptor search of `dfu_descriptors`
(src/bmp.rs lines 280-292) over the interface's trailing descriptor records:
`find` the first record whose type tag is `DfuFunctionalDescriptor::TYPE`;
a missing record hits `.expect(..)` (a panic); slicing `raw[0..9]` out of a
shorter record is a bounds panic; only a `copy_from_bytes` failure becomes
`ErrorKind::DeviceSeemsInvalid`. -/
def find_functional_descriptor (records : List GenericDescriptorRef) :
    DescriptorFindOutcome :=
  match records.find? (fun r => r.descriptorType == DfuFunctionalDescriptor.TYPE) with
  | none => .panics "DFU interface does not have a DFU functional descriptor! This shouldn't be possible!"
  | some r =>
    if r.raw.length < DfuFunctionalDescriptor.LENGTH then
      .panics "range end index 9 out of range"
    else
      match copy_from_bytes (r.raw.take DfuFunctionalDescriptor.LENGTH) with
      | .error _ => .fails (.deviceSeemsInvalid "DFU functional descriptor")
      | .ok fd => .ok fd

/-- The session configuration handed to the external transfer engine. -/
structure DfuLibusbSession where
  vid : Nat
  pid : Nat
  iface : Nat
  alt : Nat
  address : Nat
deriving DecidableEq, Repr

/-- `BlackmagicProbeDevice::download` up to the point where the transfer
engine takes over (src/bmp.rs lines 440-457): a Runtime-mode handle first
runs `detach_and_enumerate` (whose outcome is an input here), then
`DfuLibusb::open` is called with the probe vendor id, the DFU product id,
interface 0, alt-setting 0, and the target address is overridden to the
constant `0x0800_2000`.  The returned session is what the engine receives;
an error means the engine is never reached. -/
def download_session (mode : DfuOperatingMode)
    (detach_and_enumerate : Except Error Unit) (dfuOpen : UsbResult Unit)
    (firmware : List Nat) (length : Nat) : Except Error DfuLibusbSession :=
  match (if mode = .Runtime then detach_and_enumerate else .ok ()) with
  | .error e => .error e
  | .ok _ =>
    match dfuOpen with
    | .err code => .error (.transport code)
    | .ok _ =>
      .ok { vid := BmpVidPid.VID.val, pid := BmpVidPid.PID_DFU.val
            iface := 0, alt := 0, address := 0x08002000 }

/-- A probe-family candidate whose open succeeds is turned into a handle. -/
lemma from_usb_device_family (d : UsbDevice) (hf : is_probe_family d = true)
    (ho : d.openResult = .ok ()) : from_usb_device d = .ok (mk_probe d) := by
  unfold from_usb_device mk_probe
  cases hm : BmpVidPid.mode_from_vid_pid ⟨d.vid⟩ ⟨d.pid⟩ with
  | none =>
    unfold is_probe_family at hf
    rw [hm] at hf
    simp at hf
  | some mode =>
    rw [ho]
    rfl

/-- With no serial criterion, an iteration is exactly the predicate
evaluation with `serial_matches` trivially true. -/
lemma scan_step_no_serial (m : BlackmagicProbeMatcher) (i : Nat) (dev : UsbDevice)
    (acc : BlackmagicProbeMatchResults) (hs : m.serial = none) :
    scan_step m i dev acc = some (scan_finish m i dev true acc) := by
  unfold scan_step
  rw [hs]
  rfl

/-- With every criterion unset, every probe-family candidate that opens
successfully is accumulated into `found`, in enumeration order. -/
lemma scan_loop_all_unset :
    ∀ (devs : List UsbDevice) (j : Nat) (acc : BlackmagicProbeMatchResults),
    (∀ d ∈ devs, is_probe_family d = true) →
    (∀ d ∈ devs, d.openResult = .ok ()) →
    scan_loop ⟨none, none, none⟩ j devs acc
      = some { found := acc.found ++ devs.map mk_probe
               filtered_out := acc.filtered_out
               errors := acc.errors } := by
  intro devs
  induction devs with
  | nil =>
    intro j acc _ _
    simp [scan_loop]
  | cons d rest ih =>
    intro j acc hfam hopen
    have hstep := scan_step_no_serial ⟨none, none, none⟩ j d acc rfl
    have hfin : scan_finish ⟨none, none, none⟩ j d true acc
        = { acc with found := acc.found ++ [mk_probe d] } := by
      unfold scan_finish
      rw [from_usb_device_family d (hfam d (by simp)) (hopen d (by simp))]
      simp [index_matches, port_matches]
    simp only [scan_loop, hstep, hfin]
    rw [ih (j + 1) _ (fun x hx => hfam x (by simp [hx])) (fun x hx => hopen x (by simp [hx]))]
    simp

/-- With only the index criterion set, a candidate is accepted exactly when
its position in the pre-filtered sequence (threaded from `j`) equals the
requested index. -/
lemma scan_loop_index_only (i : Nat) :
    ∀ (devs : List UsbDevice) (j : Nat) (acc : BlackmagicProbeMatchResults),
    (∀ d ∈ devs, is_probe_family d = true) →
    (∀ d ∈ devs, d.openResult = .ok ()) →
    scan_loop ⟨some i, none, none⟩ j devs acc
      = some { found := acc.found
                 ++ ((devs.enumFrom j).filter (fun p => p.1 == i)).map
                      (fun p => mk_probe p.2)
               filtered_out := acc.filtered_out
                 ++ ((devs.enumFrom j).filter (fun p => p.1 != i)).map Prod.snd
               errors := acc.errors } := by
  intro devs
  induction devs with
  | nil =>
    intro j acc _ _
    simp [scan_loop, List.enumFrom]
  | cons d rest ih =>
    intro j acc hfam hopen
    have hstep := scan_step_no_serial ⟨some i, none, none⟩ j d acc rfl
    by_cases hij : j = i
    · have hfin : scan_finish ⟨some i, none, none⟩ j d true acc
          = { acc with found := acc.found ++ [mk_probe d] } := by
        unfold scan_finish
        rw [from_usb_device_family d (hfam d (by simp)) (hopen d (by simp))]
        simp [index_matches, port_matches, hij]
      simp only [scan_loop, hstep, hfin]
      rw [ih (j + 1) _ (fun x hx => hfam x (by simp [hx])) (fun x hx => hopen x (by simp [hx]))]
      simp [List.enumFrom, hij]
    · have hfin : scan_finish ⟨some i, none, none⟩ j d true acc
          = { acc with filtered_out := acc.filtered_out ++ [d] } := by
        unfold scan_finish
        have : index_matches ⟨some i, none, none⟩ j = false := by
          simp [index_matches]
          omega
        rw [this]
        simp
      simp only [scan_loop, hstep, hfin]
      rw [ih (j + 1) _ (fun x hx => hfam x (by simp [hx])) (fun x hx => hopen x (by simp [hx]))]
      have h1 : ((j, d).1 == i) = false := by
        simp
        omega
      have h2 : ((j, d).1 != i) = true := by
        simp [bne]
        omega
      simp [List.enumFrom, h1, h2]

/-- Rust `Instant::duration_since(earlier)`: the elapsed time from `earlier`
to `self`, saturating to zero when `earlier` is later than `self` — exactly
`Nat` truncated subtraction on millisecond timestamps. -/
def duration_since (self earlier : Nat) : Nat := self - earlier

/-- The loop guard of `wait_for_probe_reboot` (src/bmp.rs line 846):
`while let Err(ErrorKind::DeviceNotFound) = dev...`. -/
def is_not_found : Except Error BlackmagicProbeDevice → Bool
  | .error .deviceNotFound => true
  | _ => false

/-- `dev.unwrap_err()` as used on src/bmp.rs line 853; only reached under the
loop guard, where the value is an error. -/
def unwrap_err : Except Error BlackmagicProbeDevice → Error
  | .error e => e
  | .ok _ => .deviceNotFound

/-- The environment of one `wait_for_probe_reboot` run: the `Instant::now()`
value at loop entry (`start`), the configured timeout, the clock readings of
the two `Instant::now()` calls of each iteration (all in milliseconds), and
the `find_matching_probes` output of each scan — scan 0 is the initial one,
scan `k + 1` the one of iteration `k`.  The probe never reappearing is the
case where every scan's `found` is empty. -/
structure WaitEnv where
  start : Nat
  timeout : Nat
  checkTime : Nat → Nat
  silenceTime : Nat → Nat
  scans : Nat → BlackmagicProbeMatchResults

/-- The `while` loop of `wait_for_probe_reboot` (src/bmp.rs lines 846-867) as
a fuel-indexed recursion.  Per iteration, in source order: if
`start.duration_since(Instant::now()) > timeout` fail with `DeviceReboot`
wrapping the current error; sleep; if
`start.duration_since(Instant::now()) > silence_timeout` re-scan with the
diagnostic `pop_single`, else with `pop_single_silent`.  The returned list
logs which arm ran (`true` = diagnostic).  `none` means the fuel ran out
with the loop still spinning. -/
def wait_loop (env : WaitEnv) (silence_timeout : Nat) (k : Nat)
    (dev : Except Error BlackmagicProbeDevice) (log : List Bool) (fuel : Nat) :
    Option (Except Error BlackmagicProbeDevice) × List Bool :=
  match fuel with
  | 0 => (none, log)
  | fuel + 1 =>
    if is_not_found dev then
      if duration_since env.start (env.checkTime k) > env.timeout then
        (some (.error (.deviceReboot (unwrap_err dev))), log)
      else
        if duration_since env.start (env.silenceTime k) > silence_timeout then
          wait_loop env silence_timeout (k + 1)
            (pop_single (env.scans (k + 1))).1 (log ++ [true]) fuel
        else
          wait_loop env silence_timeout (k + 1)
            (pop_single_silent (env.scans (k + 1))).1 (log ++ [false]) fuel
    else (some dev, log)

/-- `wait_for_probe_reboot` (src/bmp.rs lines 832-872): `silence_timeout`
is half the timeout, the first scan is popped silently, then the loop
runs. -/
def wait_for_probe_reboot (env : WaitEnv) (fuel : Nat) :
    Option (Except Error BlackmagicProbeDevice) × List Bool :=
  let silence_timeout := env.timeout / 2
  wait_loop env silence_timeout 0 (pop_single_silent (env.scans 0)).1 [] fuel

/-- An empty scan popped silently yields `DeviceNotFound`. -/
lemma pop_single_silent_empty (r : BlackmagicProbeMatchResults)
    (h : r.found = []) : (pop_single_silent r).1 = .error .deviceNotFound := by
  simp [pop_single_silent, h]

/-- An empty scan popped with diagnostics yields `DeviceNotFound`. -/
lemma pop_single_empty (r : BlackmagicProbeMatchResults)
    (h : r.found = []) : (pop_single r).1 = .error .deviceNotFound := by
  simp [pop_single, h]

/-- When the clock never runs backwards past `start`, the code's elapsed-time
expression `start.duration_since(now)` is identically zero, so the timeout
test never fires and an always-not-found run spins for all of its fuel. -/
lemma wait_loop_no_timeout (env : WaitEnv) (st : Nat)
    (htime : ∀ k, env.start ≤ env.checkTime k)
    (hempty : ∀ k, (env.scans k).found = []) :
    ∀ (fuel k : Nat) (log : List Bool),
    (wait_loop env st k (.error .deviceNotFound) log fuel).1 = none := by
  intro fuel
  induction fuel with
  | zero =>
    intro k log
    rfl
  | succ n ih =>
    intro k log
    have hck : ¬ duration_since env.start (env.checkTime k) > env.timeout := by
      unfold duration_since
      rw [Nat.sub_eq_zero_of_le (htime k)]
      exact Nat.not_lt_zero _
    unfold wait_loop
    rw [if_pos (show is_not_found (.error .deviceNotFound) = true from rfl), if_neg hck]
    by_cases hv : duration_since env.start (env.silenceTime k) > st
    · rw [if_pos hv, pop_single_empty _ (hempty (k + 1))]
      exact ih (k + 1) (log ++ [true])
    · rw [if_neg hv, pop_single_silent_empty _ (hempty (k + 1))]
      exact ih (k + 1) (log ++ [false])

/-- When the clock never runs backwards past `start`, the verbosity test
`start.duration_since(now) > silence_timeout` never fires either: every
iteration takes the silent arm. -/
lemma wait_loop_log_silent (env : WaitEnv) (st : Nat)
    (htime : ∀ k, env.start ≤ env.silenceTime k) :
    ∀ (fuel k : Nat) (dev : Except Error BlackmagicProbeDevice) (log : List Bool),
    log.all (fun b => !b) = true →
    ((wait_loop env st k dev log fuel).2).all (fun b => !b) = true := by
  intro fuel
  induction fuel with
  | zero =>
    intro k dev log h
    exact h
  | succ n ih =>
    intro k dev log h
    unfold wait_loop
    by_cases hnf : is_not_found dev = true
    · rw [if_pos hnf]
      by_cases hto : duration_since env.start (env.checkTime k) > env.timeout
      · rw [if_pos hto]
        exact h
      · rw [if_neg hto]
        have hv : ¬ duration_since env.start (env.silenceTime k) > st := by
          unfold duration_since
          rw [Nat.sub_eq_zero_of_le (htime k)]
          exact Nat.not_lt_zero _
        rw [if_neg hv]
        apply ih
        simp [List.all_append, h]
    · rw [if_neg hnf]
      exact h

/-- C7: `mode_from_vid_pid` is a pure total function of the (vid, pid) pair:
the fixed vendor id with the Runtime product id maps to `Runtime`; the fixed
vendor id with the DFU product id maps to `FirmwareUpgrade`; the fixed vendor
id with any other product id maps to `none`; any other vendor id maps to
`none` regardless of product id. -/
theorem mode_from_vid_pid_table :
    BmpVidPid.mode_from_vid_pid BmpVidPid.VID BmpVidPid.PID_RUNTIME
      = some DfuOperatingMode.Runtime ∧
    BmpVidPid.mode_from_vid_pid BmpVidPid.VID BmpVidPid.PID_DFU
      = some DfuOperatingMode.FirmwareUpgrade ∧
    (∀ pid : Pid, pid ≠ BmpVidPid.PID_RUNTIME → pid ≠ BmpVidPid.PID_DFU →
      BmpVidPid.mode_from_vid_pid BmpVidPid.VID pid = none) ∧
    (∀ (vid : Vid) (pid : Pid), vid ≠ BmpVidPid.VID →
      BmpVidPid.mode_from_vid_pid vid pid = none) := by
  refine ⟨rfl, rfl, ?_, ?_⟩
  · intro pid h1 h2
    simp [BmpVidPid.mode_from_vid_pid, h1, h2]
  · intro vid pid h
    simp [BmpVidPid.mode_from_vid_pid, h]

/-- C7 witness: the characterization applied at concrete unknown ids. -/
theorem mode_from_vid_pid_table_witness :
    BmpVidPid.mode_from_vid_pid BmpVidPid.VID ⟨0x1234⟩ = none ∧
    BmpVidPid.mode_from_vid_pid ⟨0x0483⟩ ⟨0x6018⟩ = none :=
  ⟨mode_from_vid_pid_table.2.2.1 ⟨0x1234⟩ (by decide) (by decide),
   mode_from_vid_pid_table.2.2.2 ⟨0x0483⟩ ⟨0x6018⟩ (by decide)⟩

/-- Helper for C9: a successful query writes the cache. -/
theorem serial_number_aux (cache : Option String) (d : UsbDevice) (s : String)
    (h : (serial_number cache d).1 = .ok s) : (serial_number cache d).2.1 = some s := by
  cases cache with
  | some s0 => simpa [serial_number] using h
  | none =>
    unfold serial_number at h ⊢
    cases hl : d.readLanguages with
    | err code => rw [hl] at h; simp at h
    | ok langs =>
      rw [hl] at h
      cases langs with
      | nil => simp at h
      | cons l ls =>
        cases hs : d.readSerialString with
        | err code => rw [hs] at h; simp at h
        | ok s2 =>
          rw [hs] at h
          simp at h ⊢
          exact h

/-- C9: the cached serial number starts empty (every handle built by
`from_usb_device` has an empty cache), is written exactly on the first
successful query, and is immutable afterwards: once `serial_number` has
succeeded, every later call — against any collaborator outcomes — returns
the same string with the device left unread. -/
theorem serial_number_write_once :
    (∀ (d : UsbDevice) (b : BlackmagicProbeDevice),
        from_usb_device d = .ok b → b.serial = none) ∧
    (∀ (s : String) (d : UsbDevice),
        serial_number (some s) d = (.ok s, some s, false)) ∧
    (∀ (cache : Option String) (d : UsbDevice) (s : String),
        (serial_number cache d).1 = .ok s → (serial_number cache d).2.1 = some s) ∧
    (∀ (cache : Option String) (d d' : UsbDevice) (s : String),
        (serial_number cache d).1 = .ok s →
        serial_number (serial_number cache d).2.1 d' = (.ok s, some s, false)) := by
  refine ⟨?_, ?_, ?_, ?_⟩
  · intro d b h
    unfold from_usb_device at h
    cases hm : BmpVidPid.mode_from_vid_pid ⟨d.vid⟩ ⟨d.pid⟩ <;> rw [hm] at h
    · exact absurd h (by simp)
    · cases ho : d.openResult <;> rw [ho] at h
      · cases h
        rfl
      · exact absurd h (by simp)
  · intro s d
    rfl
  · intro cache d s h
    exact serial_number_aux cache d s h
  · intro cache d d' s h
    rw [serial_number_aux cache d s h]
    rfl

/-- C9 witness: the write-once behaviour at a concrete device. -/
theorem serial_number_write_once_witness :
    serial_number (serial_number none
        ⟨0x1d50, 0x6018, 1, [2], .ok (), .ok [0x0409], .ok "ABC123"⟩).2.1
        ⟨0x1d50, 0x6018, 1, [2], .err 3, .err 3, .err 3⟩
      = (.ok "ABC123", some "ABC123", false) :=
  serial_number_write_once.2.2.2 none
    ⟨0x1d50, 0x6018, 1, [2], .ok (), .ok [0x0409], .ok "ABC123"⟩
    ⟨0x1d50, 0x6018, 1, [2], .err 3, .err 3, .err 3⟩ "ABC123" rfl

/-- C4: for every `MatchResults` value, `pop_single` returns `DeviceNotFound`
when `found` is empty; with exactly one entry it returns that entry and
`found` becomes empty; with more than one entry it returns `TooManyDevices`
and the whole results value (`found`, `filtered_out` and `errors`) is left
unchanged. -/
theorem pop_single_arity (r : BlackmagicProbeMatchResults) :
    (r.found = [] → pop_single r = (.error .deviceNotFound, r)) ∧
    (∀ d, r.found = [d] → pop_single r = (.ok d, { r with found := [] })) ∧
    (r.found.length > 1 → pop_single r = (.error .tooManyDevices, r)) := by
  refine ⟨?_, ?_, ?_⟩
  · intro h
    simp [pop_single, h]
  · intro d h
    simp [pop_single, h]
  · intro h
    unfold pop_single
    cases hf : r.found with
    | nil => rw [hf] at h; simp at h
    | cons d rest =>
      rw [hf] at h
      simp only [h, if_pos]

/-- C4 witness: the three arities at concrete results values. -/
theorem pop_single_arity_witness :
    pop_single ⟨[], [], []⟩ = (.error .deviceNotFound, ⟨[], [], []⟩) ∧
    pop_single ⟨[⟨⟨0x1d50, 0x6018, 1, [2], .ok (), .ok [0x0409], .ok "A"⟩,
        .Runtime, none⟩], [], []⟩
      = (.ok ⟨⟨0x1d50, 0x6018, 1, [2], .ok (), .ok [0x0409], .ok "A"⟩,
        .Runtime, none⟩, ⟨[], [], []⟩) ∧
    pop_single ⟨[⟨⟨0x1d50, 0x6018, 1, [2], .ok (), .ok [0x0409], .ok "A"⟩,
        .Runtime, none⟩,
        ⟨⟨0x1d50, 0x6017, 1, [3], .ok (), .ok [0x0409], .ok "B"⟩,
        .FirmwareUpgrade, none⟩], [], []⟩
      = (.error .tooManyDevices,
        ⟨[⟨⟨0x1d50, 0x6018, 1, [2], .ok (), .ok [0x0409], .ok "A"⟩,
        .Runtime, none⟩,
        ⟨⟨0x1d50, 0x6017, 1, [3], .ok (), .ok [0x0409], .ok "B"⟩,
        .FirmwareUpgrade, none⟩], [], []⟩) :=
  ⟨(pop_single_arity ⟨[], [], []⟩).1 rfl,
   (pop_single_arity _).2.1 _ rfl,
   (pop_single_arity _).2.2 (by decide)⟩

/-- C6: per-candidate failures (open, language read, serial read) are
recorded in `errors` and the scan proceeds with the remaining candidates —
no candidate's failure aborts the scan, and every scanned candidate is
accounted for in exactly one of the three sets; a failure enumerating the
device universe itself yields exactly that one error with `found` and
`filtered_out` both empty. -/
theorem find_matching_probes_partial_failure :
    (∀ (m : BlackmagicProbeMatcher) (u : UsbUniverse) (c : Nat),
      u.contextResult = .err c →
      find_matching_probes m u = some ⟨[], [], [.transport c]⟩) ∧
    (∀ (m : BlackmagicProbeMatcher) (u : UsbUniverse) (c : Nat),
      u.contextResult = .ok () → u.devicesResult = .err c →
      find_matching_probes m u = some ⟨[], [], [.transport c]⟩) ∧
    (∀ (m : BlackmagicProbeMatcher) (i : Nat) (dev : UsbDevice)
        (rest : List UsbDevice) (acc : BlackmagicProbeMatchResults) (c : Nat),
      m.serial.isSome = true → dev.openResult = .err c →
      scan_loop m i (dev :: rest) acc
        = scan_loop m (i + 1) rest { acc with errors := acc.errors ++ [.transport c] }) ∧
    (∀ (m : BlackmagicProbeMatcher) (i : Nat) (dev : UsbDevice)
        (rest : List UsbDevice) (acc : BlackmagicProbeMatchResults) (c : Nat),
      m.serial.isSome = true → dev.openResult = .ok () → dev.readLanguages = .err c →
      scan_loop m i (dev :: rest) acc
        = scan_loop m (i + 1) rest { acc with errors := acc.errors ++ [.transport c] }) ∧
    (∀ (m : BlackmagicProbeMatcher) (i : Nat) (dev : UsbDevice)
        (rest : List UsbDevice) (acc : BlackmagicProbeMatchResults)
        (c : Nat) (l : List Nat),
      m.serial.isSome = true → dev.openResult = .ok () →
      dev.readLanguages = .ok l → l ≠ [] → dev.readSerialString = .err c →
      scan_loop m i (dev :: rest) acc
        = scan_loop m (i + 1) rest { acc with errors := acc.errors ++ [.transport c] }) ∧
    (∀ (m : BlackmagicProbeMatcher) (i : Nat) (devs : List UsbDevice)
        (acc r : BlackmagicProbeMatchResults),
      scan_loop m i devs acc = some r →
      r.found.length + r.filtered_out.length + r.errors.length
        = acc.found.length + acc.filtered_out.length + acc.errors.length + devs.length) := by
  refine ⟨?_, ?_, ?_, ?_, ?_, ?_⟩
  · intro m u c h
    unfold find_matching_probes
    rw [h]
  · intro m u c h1 h2
    unfold find_matching_probes
    rw [h1, h2]
  · intro m i dev rest acc c hs ho
    have hstep : scan_step m i dev acc
        = some { acc with errors := acc.errors ++ [Error.transport c] } := by
      unfold scan_step
      rw [if_pos hs, ho]
    simp only [scan_loop, hstep]
  · intro m i dev rest acc c hs ho hl
    have hstep : scan_step m i dev acc
        = some { acc with errors := acc.errors ++ [Error.transport c] } := by
      unfold scan_step
      rw [if_pos hs, ho, hl]
    simp only [scan_loop, hstep]
  · intro m i dev rest acc c l hs ho hl hne hsr
    cases l with
    | nil => exact absurd rfl hne
    | cons a as =>
      have hstep : scan_step m i dev acc
          = some { acc with errors := acc.errors ++ [Error.transport c] } := by
        unfold scan_step
        rw [if_pos hs, ho, hl, hsr]
      simp only [scan_loop, hstep]
  · intro m i devs acc r h
    exact scan_loop_count m devs i acc r h

/-- C6 witness: a context failure short-circuits, and a candidate whose open
fails under a serial criterion is recorded while the scan continues. -/
theorem find_matching_probes_partial_failure_witness :
    find_matching_probes ⟨none, some "A", none⟩ ⟨.err 7, .ok (), []⟩
      = some ⟨[], [], [.transport 7]⟩ ∧
    scan_loop ⟨none, some "A", none⟩ 0
        [⟨0x1d50, 0x6018, 1, [2], .err 9, .ok [0x0409], .ok "A"⟩] ⟨[], [], []⟩
      = scan_loop ⟨none, some "A", none⟩ 1 [] ⟨[], [], [.transport 9]⟩ :=
  ⟨find_matching_probes_partial_failure.1 ⟨none, some "A", none⟩ ⟨.err 7, .ok (), []⟩ 7 rfl,
   find_matching_probes_partial_failure.2.2.1 ⟨none, some "A", none⟩ 0
     ⟨0x1d50, 0x6018, 1, [2], .err 9, .ok [0x0409], .ok "A"⟩ [] ⟨[], [], []⟩ 9 rfl rfl⟩

/-- C8: matching is the conjunction of three predicates, each defaulting to
true when its criterion is unset; with all criteria unset `found` contains
every probe-family device of the universe (in order) and `filtered_out` is
empty; and the index criterion is evaluated against the candidate's position
in the pre-filtered probe-family sequence (`enumFrom 0` over the filtered
list), not in the raw device list. -/
theorem find_matching_probes_conjunctive (u : UsbUniverse) (i : Nat)
    (hctx : u.contextResult = .ok ()) (hdev : u.devicesResult = .ok ())
    (hopen : ∀ d ∈ u.devices.filter is_probe_family, d.openResult = .ok ()) :
    (∀ (m : BlackmagicProbeMatcher) (idx : Nat),
      m.index = none → index_matches m idx = true) ∧
    (∀ (m : BlackmagicProbeMatcher) (d : UsbDevice),
      m.port = none → port_matches m d = true) ∧
    (∀ (m : BlackmagicProbeMatcher) (idx : Nat) (d : UsbDevice)
        (acc : BlackmagicProbeMatchResults),
      m.serial = none → scan_step m idx d acc = some (scan_finish m idx d true acc)) ∧
    find_matching_probes ⟨none, none, none⟩ u
      = some { found := (u.devices.filter is_probe_family).map mk_probe
               filtered_out := []
               errors := [] } ∧
    find_matching_probes ⟨some i, none, none⟩ u
      = some { found := (((u.devices.filter is_probe_family).enumFrom 0).filter
                   (fun p => p.1 == i)).map (fun p => mk_probe p.2)
               filtered_out := (((u.devices.filter is_probe_family).enumFrom 0).filter
                   (fun p => p.1 != i)).map Prod.snd
               errors := [] } := by
  have hfam : ∀ d ∈ u.devices.filter is_probe_family, is_probe_family d = true := by
    intro d hd
    exact (List.mem_filter.mp hd).2
  refine ⟨?_, ?_, ?_, ?_, ?_⟩
  · intro m idx h
    simp [index_matches, h]
  · intro m d h
    simp [port_matches, h]
  · intro m idx d acc h
    exact scan_step_no_serial m idx d acc h
  · unfold find_matching_probes
    rw [hctx, hdev]
    rw [scan_loop_all_unset (u.devices.filter is_probe_family) 0 ⟨[], [], []⟩ hfam hopen]
    simp
  · unfold find_matching_probes
    rw [hctx, hdev]
    rw [scan_loop_index_only i (u.devices.filter is_probe_family) 0 ⟨[], [], []⟩ hfam hopen]
    simp

/-- C8 witness: a three-device universe (two probe-family devices around a
stranger); with no criteria both family devices are found; with index 1 only
the second family device (the third raw device) is found. -/
theorem find_matching_probes_conjunctive_witness :
    find_matching_probes ⟨none, none, none⟩
        ⟨.ok (), .ok (),
         [⟨0x1d50, 0x6018, 1, [2], .ok (), .ok [0x0409], .ok "A"⟩,
          ⟨0x0483, 0x5740, 1, [3], .ok (), .ok [0x0409], .ok "X"⟩,
          ⟨0x1d50, 0x6017, 1, [4], .ok (), .ok [0x0409], .ok "B"⟩]⟩
      = some { found := ([⟨0x1d50, 0x6018, 1, [2], .ok (), .ok [0x0409], .ok "A"⟩,
                 ⟨0x0483, 0x5740, 1, [3], .ok (), .ok [0x0409], .ok "X"⟩,
                 ⟨0x1d50, 0x6017, 1, [4], .ok (), .ok [0x0409], .ok "B"⟩].filter
                   is_probe_family).map mk_probe
               filtered_out := []
               errors := [] } ∧
    find_matching_probes ⟨some 1, none, none⟩
        ⟨.ok (), .ok (),
         [⟨0x1d50, 0x6018, 1, [2], .ok (), .ok [0x0409], .ok "A"⟩,
          ⟨0x0483, 0x5740, 1, [3], .ok (), .ok [0x0409], .ok "X"⟩,
          ⟨0x1d50, 0x6017, 1, [4], .ok (), .ok [0x0409], .ok "B"⟩]⟩
      = some { found := [mk_probe ⟨0x1d50, 0x6017, 1, [4], .ok (), .ok [0x0409], .ok "B"⟩]
               filtered_out := [⟨0x1d50, 0x6018, 1, [2], .ok (), .ok [0x0409], .ok "A"⟩]
               errors := [] } := by
  have h := find_matching_probes_conjunctive
    ⟨.ok (), .ok (),
     [⟨0x1d50, 0x6018, 1, [2], .ok (), .ok [0x0409], .ok "A"⟩,
      ⟨0x0483, 0x5740, 1, [3], .ok (), .ok [0x0409], .ok "X"⟩,
      ⟨0x1d50, 0x6017, 1, [4], .ok (), .ok [0x0409], .ok "B"⟩]⟩ 1 rfl rfl (by decide)
  refine ⟨h.2.2.2.1, ?_⟩
  rw [h.2.2.2.2]
  rfl

/-- C1 counterexample: with DFU interface number 1, the zero-length DNLOAD
request of the leave transition carries `wIndex` 0, not the interface
number — the claim's predicted index list `[1, 1]` differs from the actual
`[0, 1]`. -/
theorem leave_dfu_mode_dnload_index_counterexample :
    (leave_dfu_mode_requests 1).map ControlRequest.index = [0, 1] ∧
    ¬ (leave_dfu_mode_requests 1).map ControlRequest.index = [1, 1] := by
  constructor
  · rfl
  · decide

/-- C1 amended: in the leave transition the zero-length DNLOAD is sent
host-to-device with request code 1, value 0, no payload and a hard-coded 0
as the index field, followed by a device-to-host GETSTATUS (code 3) with a
6-byte buffer and the DFU interface number as the index field. -/
theorem leave_dfu_mode_request_sequence (iface_number : Nat) :
    leave_dfu_mode_requests iface_number
      = [ { direction := .hostToDevice, request := 1
            value := 0, index := 0, dataLength := 0 },
          { direction := .deviceToHost, request := 3
            value := 0, index := iface_number, dataLength := 6 } ] :=
  rfl

/-- C5 counterexample: with no record carrying the functional-descriptor
type tag (or with a matching record shorter than 9 bytes) the search panics
— it does not return a `DeviceSeemsInvalid` error. -/
theorem find_functional_descriptor_counterexample :
    (find_functional_descriptor [⟨0x04, [4, 4]⟩]).isDeviceSeemsInvalid = false ∧
    (find_functional_descriptor [⟨0x04, [4, 4]⟩]).isPanic = true ∧
    (find_functional_descriptor [⟨0x21, [7, 0x21]⟩]).isDeviceSeemsInvalid = false ∧
    (find_functional_descriptor [⟨0x21, [7, 0x21]⟩]).isPanic = true := by
  refine ⟨rfl, rfl, rfl, rfl⟩

/-- C5 amended: if no trailing record carries the functional-descriptor type
tag, or the first matching record's payload is shorter than the fixed 9-byte
record size, the operation aborts the program (the `.expect(..)` panic,
respectively the `raw[0..9]` bounds panic) rather than returning an error;
a matching record with at least 9 raw bytes decodes successfully. -/
theorem find_functional_descriptor_outcomes (records : List GenericDescriptorRef) :
    (records.find? (fun r => r.descriptorType == DfuFunctionalDescriptor.TYPE) = none →
      find_functional_descriptor records
        = .panics "DFU interface does not have a DFU functional descriptor! This shouldn't be possible!") ∧
    (∀ r, records.find? (fun r => r.descriptorType == DfuFunctionalDescriptor.TYPE) = some r →
      r.raw.length < 9 →
      find_functional_descriptor records = .panics "range end index 9 out of range") ∧
    (∀ r, records.find? (fun r => r.descriptorType == DfuFunctionalDescriptor.TYPE) = some r →
      9 ≤ r.raw.length →
      ∃ fd, find_functional_descriptor records = .ok fd) := by
  refine ⟨?_, ?_, ?_⟩
  · intro h
    simp only [find_functional_descriptor, h]
  · intro r h hlen
    have hlen9 : r.raw.length < DfuFunctionalDescriptor.LENGTH := by
      simp only [DfuFunctionalDescriptor.LENGTH]
      omega
    simp only [find_functional_descriptor, h]
    rw [if_pos hlen9]
  · intro r h hlen
    have hlen9 : ¬ r.raw.length < DfuFunctionalDescriptor.LENGTH := by
      simp only [DfuFunctionalDescriptor.LENGTH]
      omega
    have htake : (r.raw.take DfuFunctionalDescriptor.LENGTH).length
        = DfuFunctionalDescriptor.LENGTH := by
      simp only [DfuFunctionalDescriptor.LENGTH, List.length_take]
      omega
    have hcopy : copy_from_bytes (r.raw.take DfuFunctionalDescriptor.LENGTH)
        = .ok { bLength := (r.raw.take DfuFunctionalDescriptor.LENGTH).getD 0 0
                bDescriptorType := (r.raw.take DfuFunctionalDescriptor.LENGTH).getD 1 0
                bmAttributes := (r.raw.take DfuFunctionalDescriptor.LENGTH).getD 2 0
                wDetachTimeOut := le16 ((r.raw.take DfuFunctionalDescriptor.LENGTH).getD 3 0)
                  ((r.raw.take DfuFunctionalDescriptor.LENGTH).getD 4 0)
                wTransferSize := le16 ((r.raw.take DfuFunctionalDescriptor.LENGTH).getD 5 0)
                  ((r.raw.take DfuFunctionalDescriptor.LENGTH).getD 6 0)
                bcdDFUVersion := le16 ((r.raw.take DfuFunctionalDescriptor.LENGTH).getD 7 0)
                  ((r.raw.take DfuFunctionalDescriptor.LENGTH).getD 8 0) } := by
      unfold copy_from_bytes
      rw [if_pos htake]
    simp only [find_functional_descriptor, h]
    rw [if_neg hlen9, hcopy]
    exact ⟨_, rfl⟩

/-- C5 amended witness: a well-formed 9-byte functional descriptor record is
found and decoded; a short matching record panics. -/
theorem find_functional_descriptor_outcomes_witness :
    (∃ fd, find_functional_descriptor
        [⟨0x04, [4, 4]⟩, ⟨0x21, [9, 0x21, 0x0b, 0xff, 0x00, 0x00, 0x04, 0x1a, 0x01]⟩]
      = .ok fd) ∧
    find_functional_descriptor [⟨0x21, [7, 0x21]⟩]
      = .panics "range end index 9 out of range" :=
  ⟨(find_functional_descriptor_outcomes
      [⟨0x04, [4, 4]⟩, ⟨0x21, [9, 0x21, 0x0b, 0xff, 0x00, 0x00, 0x04, 0x1a, 0x01]⟩]).2.2
      ⟨0x21, [9, 0x21, 0x0b, 0xff, 0x00, 0x00, 0x04, 0x1a, 0x01]⟩ (by decide) (by decide),
   (find_functional_descriptor_outcomes [⟨0x21, [7, 0x21]⟩]).2.1
      ⟨0x21, [7, 0x21]⟩ (by decide) (by decide)⟩

/-- C10: every invocation of `download` that reaches the transfer engine
opens the engine session with the probe-family vendor id `0x1d50` and the
DFU-mode product id `0x6017`, and overrides the target address to the
constant `0x0800_2000`, regardless of the firmware stream's contents or its
declared length. -/
theorem download_session_constants (mode : DfuOperatingMode)
    (detach : Except Error Unit) (dfuOpen : UsbResult Unit)
    (firmware : List Nat) (length : Nat) (s : DfuLibusbSession)
    (h : download_session mode detach dfuOpen firmware length = .ok s) :
    s.vid = 0x1d50 ∧ s.pid = 0x6017 ∧ s.address = 0x08002000 ∧
    (∀ (firmware2 : List Nat) (length2 : Nat),
      download_session mode detach dfuOpen firmware2 length2 = .ok s) := by
  unfold download_session at h
  cases hd : (if mode = .Runtime then detach else .ok ()) with
  | error e => rw [hd] at h; cases h
  | ok u =>
    rw [hd] at h
    cases ho : dfuOpen with
    | err code => rw [ho] at h; cases h
    | ok v =>
      rw [ho] at h
      cases h
      refine ⟨rfl, rfl, rfl, ?_⟩
      intro fw2 len2
      unfold download_session
      rw [hd]

/-- C10 witness: a FirmwareUpgrade-mode handle with a successful engine open
reaches the engine with the fixed ids and address, for any firmware bytes. -/
theorem download_session_constants_witness :
    download_session .FirmwareUpgrade (.ok ()) (.ok ()) [1, 2, 3] 3
        = .ok ⟨0x1d50, 0x6017, 0, 0, 0x08002000⟩ ∧
    (⟨0x1d50, 0x6017, 0, 0, 0x08002000⟩ : DfuLibusbSession).address = 0x08002000 :=
  ⟨(download_session_constants .FirmwareUpgrade (.ok ()) (.ok ()) [1, 2, 3] 3
      ⟨0x1d50, 0x6017, 0, 0, 0x08002000⟩ rfl).2.2.2 [1, 2, 3] 3,
   (download_session_constants .FirmwareUpgrade (.ok ()) (.ok ()) [1, 2, 3] 3
      ⟨0x1d50, 0x6017, 0, 0, 0x08002000⟩ rfl).2.2.1⟩

/-- C2 (code defect): in a run where the target serial never reappears and
the clock never reads earlier than `start`, the waiter never fails with
`DeviceReboot` at all — for every amount of fuel the loop is still spinning.
The code computes `start.duration_since(Instant::now())`, which saturates to
zero once the clock passes `start`, so its timeout test `0 > timeout` never
fires, contradicting both the claim and the code's own comment
("If it's been more than the timeout length, error out"). -/
theorem wait_for_probe_reboot_never_fails (env : WaitEnv) (fuel : Nat)
    (htime : ∀ k, env.start ≤ env.checkTime k)
    (hempty : ∀ k, (env.scans k).found = []) :
    (wait_for_probe_reboot env fuel).1 = none := by
  unfold wait_for_probe_reboot
  rw [pop_single_silent_empty _ (hempty 0)]
  exact wait_loop_no_timeout env (env.timeout / 2) htime hempty fuel 0 []

/-- C2 witness: timeout 5000 ms, the clock advancing 200 ms per poll, the
probe never present; after 100 iterations (well past the 25 the timeout
allows for) the loop is still spinning instead of having failed with
`DeviceReboot`. -/
theorem wait_for_probe_reboot_never_fails_witness :
    (wait_for_probe_reboot
        ⟨0, 5000, fun k => 200 * (k + 1), fun k => 200 * (k + 1) + 100,
         fun _ => ⟨[], [], []⟩⟩ 100).1 = none :=
  wait_for_probe_reboot_never_fails _ 100 (fun _ => Nat.zero_le _) (fun _ => rfl)

/-- C3 (code defect): under a forward-running clock, every polling attempt of
the waiter — including every attempt made after half the total timeout — uses
the silent `pop_single_silent`; the diagnostic `pop_single` arm is never
taken, because `start.duration_since(Instant::now())` saturates to zero and
the test `0 > silence_timeout` never fires, contradicting the claim and the
code's own comment ("If we've been trying for over half the full timeout,
start logging warnings"). -/
theorem wait_for_probe_reboot_always_silent (env : WaitEnv) (fuel : Nat)
    (htime : ∀ k, env.start ≤ env.silenceTime k) :
    ((wait_for_probe_reboot env fuel).2).all (fun b => !b) = true := by
  unfold wait_for_probe_reboot
  exact wait_loop_log_silent env (env.timeout / 2) htime fuel 0
    (pop_single_silent (env.scans 0)).1 [] rfl

/-- C3 witness: timeout 5000 ms (half-timeout 2500 ms), polls every 200 ms
out to 8000 ms; the attempts past 2500 ms still take the silent arm — the
log contains no diagnostic entry. -/
theorem wait_for_probe_reboot_always_silent_witness :
    ((wait_for_probe_reboot
        ⟨0, 5000, fun k => 200 * (k + 1), fun k => 200 * (k + 1) + 100,
         fun _ => ⟨[], [], []⟩⟩ 40).2).all (fun b => !b) = true :=
  wait_for_probe_reboot_always_silent _ 40 (fun _ => Nat.zero_le _)

end Bmputil
